import Mathlib

/-!
Verification of the Donor Matching & Request Fulfillment core of the
AI-Blood-App repository, shallowly embedded in Lean 4.

The embedding covers:
* `src/frontend/src/constants/bloodTypes.ts` — the static blood-type
  compatibility table and its reverse lookup;
* `src/frontend/src/api/bloodApi.ts` and the screens that call it — the
  client-side accept gating, the create-request form, the notification
  list updates, and the auth store;
* the server-side `FulfillmentCoordinator` and `MatchSelector`, which are
  not part of the visible sources and are modelled from the specification.

Machine integers are modelled as `Nat`/`Int`; JavaScript strings as
`String`; JavaScript `undefined`/`null` as `Option`.
-/

/- ### CompatibilityTable (src/frontend/src/constants/bloodTypes.ts) -/

/-- Constant `BLOOD_TYPES` from bloodTypes.ts line 1: the 8 ABO/Rh blood types. -/
def BLOOD_TYPES : List String := ["O-", "O+", "A-", "A+", "B-", "B+", "AB-", "AB+"]

/-- Constant `BLOOD_COMPATIBILITY` from bloodTypes.ts lines 9–18, as the ordered
association list of its entries (`Object.entries` preserves insertion
order, which the reverse lookup iterates over). -/
def BLOOD_COMPATIBILITY : List (String × List String) :=
  [ ("O-", ["O-", "O+", "A-", "A+", "B-", "B+", "AB-", "AB+"]),
    ("O+", ["O+", "A+", "B+", "AB+"]),
    ("A-", ["A-", "A+", "AB-", "AB+"]),
    ("A+", ["A+", "AB+"]),
    ("B-", ["B-", "B+", "AB-", "AB+"]),
    ("B+", ["B+", "AB+"]),
    ("AB-", ["AB-", "AB+"]),
    ("AB+", ["AB+"]) ]

/-- Property access `BLOOD_COMPATIBILITY[t]`: `some` of the recipient list
for the 8 keys, `none` (JS `undefined`) for any other string. -/
def compatLookup (t : String) : Option (List String) :=
  (BLOOD_COMPATIBILITY.find? (fun e => e.1 == t)).map (fun e => e.2)

/-- Relation `canDonateTo(d, r)`: `r` is an element of `BLOOD_COMPATIBILITY[d]`
(false when `d` is not a key of the table). -/
def canDonateTo (d r : String) : Bool :=
  match compatLookup d with
  | some lst => lst.contains r
  | none => false

/-- Function `getCompatibleDonorTypes` from bloodTypes.ts lines 20–28: scan the
forward table in entry order and push every donor type whose
`canDonateTo` list contains the recipient type. -/
def getCompatibleDonorTypes (recipientType : String) : List String :=
  BLOOD_COMPATIBILITY.foldl
    (fun compatible e =>
      if e.2.contains recipientType then compatible ++ [e.1] else compatible)
    []

/- Spec-side definitions of the standard ABO/Rh donation rules, for the
refinement claim C2.  A type string carries antigen A iff its name does,
antigen B likewise, and is Rh-positive iff it ends in `+`. -/

/-- Spec-side: the type's red cells carry the A antigen. -/
def hasAntigenA (t : String) : Bool := t.data.contains 'A'

/-- Spec-side: the type's red cells carry the B antigen. -/
def hasAntigenB (t : String) : Bool := t.data.contains 'B'

/-- Spec-side: the type is Rh-positive. -/
def isRhPositive (t : String) : Bool := t.data.contains '+'

/-- Spec-side standard donation rule: donor ABO antigens are a subset of
the recipient's, and the donor is Rh-negative or the recipient
Rh-positive. -/
def stdCanDonateTo (d r : String) : Bool :=
  (!hasAntigenA d || hasAntigenA r) &&
  (!hasAntigenB d || hasAntigenB r) &&
  (!isRhPositive d || isRhPositive r)

/-- Modelled from the spec: §4.2 requires the inverse lookup
`compatibleDonorsFor` to fail with `UnknownBloodType` on unknown type
strings; this error-signalling contract is absent from the sources, so it
is reproduced here from the spec's words for comparison with
`getCompatibleDonorTypes`. -/
inductive LookupOutcome where
  | ok : List String → LookupOutcome
  | unknownBloodType : LookupOutcome
deriving DecidableEq

/-- Modelled from the spec: `compatibleDonorsFor` as §4.2 mandates it —
the forward-table scan on the 8 known types, `UnknownBloodType` on any
other string. -/
def specCompatibleDonorsFor (t : String) : LookupOutcome :=
  if BLOOD_TYPES.contains t then .ok (getCompatibleDonorTypes t)
  else .unknownBloodType

/-- Modelled from the spec: the unit-accounting state of a BloodRequest
(§3, §4.5) — `units_needed` positive, `units_fulfilled` a counter, and
the explicit cancel flag; §4.5 requires status to be derivable from
these. -/
structure ReqState where
  units_needed : Nat
  units_fulfilled : Nat
  cancelled : Bool
deriving DecidableEq

/-- Modelled from the spec: outcome of `acceptMatch` for a proposed,
undecided (request, donor) match (§4.6 steps 2–4; `MatchNotFound` and
`AlreadyDecided` concern matches that are not proposed-and-undecided and
do not arise here). -/
inductive AcceptOutcome where
  | success
  | requestTerminal
  | requestAlreadySatisfied
deriving DecidableEq

/-- Modelled from the spec: §4.5 — the request is terminal when cancelled
or when the unit count has saturated (status `fulfilled`). -/
def ReqState.isTerminal (r : ReqState) : Bool :=
  r.cancelled || (r.units_fulfilled == r.units_needed)

/-- Modelled from the spec: the atomic step 3–4 of `acceptMatch` (§4.6) —
increment `units_fulfilled` while below `units_needed`, otherwise fail
with `RequestAlreadySatisfied`. -/
def atomicAccept (r : ReqState) : AcceptOutcome × ReqState :=
  if r.units_fulfilled < r.units_needed then
    (.success, { r with units_fulfilled := r.units_fulfilled + 1 })
  else (.requestAlreadySatisfied, r)

/-- Modelled from the spec: full `acceptMatch` (§4.6 steps 2–4): the
step-2 terminal check followed by the atomic unit-accounting step. -/
def acceptMatch (r : ReqState) : AcceptOutcome × ReqState :=
  if r.isTerminal then (.requestTerminal, r) else atomicAccept r

/-- Modelled from the spec: N concurrent accepts on one request (§5, §8).
Each call's step-2 load sees the initial `matching` state, and §4.6
requires steps 3–4 to run under per-request mutual exclusion, so the
concurrent run is some serialization of the N atomic steps; the atomic
step is insensitive to order, so it is the N-fold iteration. -/
def runAccepts : Nat → ReqState → List AcceptOutcome × ReqState
  | 0, r => ([], r)
  | n + 1, r =>
      ((atomicAccept r).1 :: (runAccepts n (atomicAccept r).2).1,
        (runAccepts n (atomicAccept r).2).2)

/-- Modelled from the spec: a freshly created request — `units_fulfilled`
starts at 0, not cancelled (§4.5 `create → pending → matching`). -/
def freshRequest (un : Nat) : ReqState := ⟨un, 0, false⟩

/-- The accept-button gate of RequestDetailScreen, request/[id].tsx line
272: `isDonor && amMatched && !hasAccepted && request.status !==
'fulfilled'`. -/
def showAcceptDetail (isDonor amMatched hasAccepted : Bool) (status : String) : Bool :=
  isDonor && amMatched && !hasAccepted && (status != "fulfilled")

/-- The accept-button gate of RequestCard, RequestCard.tsx line 82:
`showAccept && request.status !== 'fulfilled'`. -/
def showAcceptCard (showAccept : Bool) (status : String) : Bool :=
  showAccept && (status != "fulfilled")

/-- Modelled from the spec: a candidate donor as MatchSelector sees one
(§3 Donor). -/
structure Donor where
  donor_id : Nat
  donor_name : String
  blood_type : String
  is_available : Bool
deriving DecidableEq

/-- Modelled from the spec: a DonorMatch record (§3, mirroring the client
interface of bloodApi.ts lines 32–41), with integer-scaled distance and
score in place of floats. -/
structure DonorMatch where
  donor_id : Nat
  donor_name : String
  blood_type : String
  distance_km : Int
  compatibility_score : Int
  is_available : Bool
  status : String
deriving DecidableEq

/-- Modelled from the spec: the §4.4 step-6 order — descending score,
ties by ascending distance, then by donor identity. `matchLE a b` reads
"`a` sorts no later than `b`". -/
def matchLE (a b : DonorMatch) : Bool :=
  (b.compatibility_score < a.compatibility_score)
  || (b.compatibility_score == a.compatibility_score
      && (a.distance_km < b.distance_km
          || (a.distance_km == b.distance_km && a.donor_id ≤ b.donor_id)))

/-- Insertion step of the §4.4 step-6 sort. -/
def insertMatch (a : DonorMatch) : List DonorMatch → List DonorMatch
  | [] => [a]
  | b :: l => if matchLE a b then a :: b :: l else b :: insertMatch a l

/-- The §4.4 step-6 sort, as insertion sort. -/
def sortMatches : List DonorMatch → List DonorMatch
  | [] => []
  | a :: l => insertMatch a (sortMatches l)

/-- Modelled from the spec: `selectMatches` (§4.4) — filter to available
donors, to donors outside the cooldown window, to compatible donors, to
donors within the search radius; score; sort; truncate to top-N.
`dist` stands for GeoDistance against the request's coordinate,
`cooldownOk` for the last-donation-date check, and `score` for the
ScoringEngine. -/
def selectMatches (radius_km : Int) (topN : Nat) (requestBloodType : String)
    (dist score : Donor → Int) (cooldownOk : Donor → Bool)
    (candidates : List Donor) : List DonorMatch :=
  let avail := candidates.filter (fun d => d.is_available)
  let cooled := avail.filter cooldownOk
  let compat := cooled.filter (fun d => canDonateTo d.blood_type requestBloodType)
  let near := compat.filter (fun d => dist d ≤ radius_km)
  let scored := near.map (fun d =>
    { donor_id := d.donor_id, donor_name := d.donor_name,
      blood_type := d.blood_type, distance_km := dist d,
      compatibility_score := score d, is_available := d.is_available,
      status := "proposed" })
  (sortMatches scored).take topN

/-- Accumulate the longest decimal-digit run, most significant first. -/
def parseNatLoop : List Char → Nat → Nat
  | c :: cs, acc =>
      if c.isDigit then parseNatLoop cs (acc * 10 + (c.toNat - 48)) else acc
  | [], acc => acc

/-- The longest leading decimal-digit run of a character list; `none`
when the list does not start with a digit. -/
def parseLeadingNat : List Char → Option Nat
  | c :: cs => if c.isDigit then some (parseNatLoop cs (c.toNat - 48)) else none
  | [] => none

/-- Model of JavaScript `parseInt(s)` on base-10 input: skip leading
whitespace, read one optional sign, then the longest digit run; NaN
(`none`) when no digit follows. -/
def jsParseInt (s : String) : Option Int :=
  match s.data.dropWhile (fun c => c == ' ' || c == '\t' || c == '\n') with
  | '-' :: rest => (parseLeadingNat rest).map (fun n => -(n : Int))
  | '+' :: rest => (parseLeadingNat rest).map (fun n => (n : Int))
  | rest => (parseLeadingNat rest).map (fun n => (n : Int))

/-- Expression `parseInt(unitsNeeded) || 1` from part_001 line 82: JavaScript `||`
replaces the falsy numbers NaN and 0 by the fallback 1. -/
def unitsNeededValue (unitsNeeded : String) : Int :=
  match jsParseInt unitsNeeded with
  | none => 1
  | some n => if n = 0 then 1 else n

/-- The options of the units selector, part_001 line 135. -/
def UNIT_OPTIONS : List String := ["1", "2", "3", "4", "5+"]

/-- The values the `unitsNeeded` form state can hold: the initial `'1'`
(part_001 line 28) or an option chosen via `setUnitsNeeded` (line 142). -/
def unitsStateReachable (s : String) : Prop := s = "1" ∨ s ∈ UNIT_OPTIONS

/-- The zustand store state, authStore.ts lines 24–41. The user object is
kept opaquely as its JSON string; absent values are `none`. -/
structure AuthState where
  user : Option String
  token : Option String
  isLoading : Bool
  isAuthenticated : Bool
deriving DecidableEq

/-- The initial store state, authStore.ts lines 38–41. -/
def initialAuthState : AuthState :=
  { user := none, token := none, isLoading := true, isAuthenticated := false }

/-- Operation `login` (authStore.ts lines 43–59): on success (`some (token, user)`
from the server) set token, user and isAuthenticated; the error path
re-throws without calling `set`. -/
def login (s : AuthState) (result : Option (String × String)) : AuthState :=
  match result with
  | some (access_token, u) =>
      { s with token := some access_token, user := some u, isAuthenticated := true }
  | none => s

/-- Operation `register` (authStore.ts lines 61–74): same state update as login. -/
def registerUser (s : AuthState) (result : Option (String × String)) : AuthState :=
  login s result

/-- Operation `logout` (authStore.ts lines 76–80). -/
def logout (s : AuthState) : AuthState :=
  { s with token := none, user := none, isAuthenticated := false }

/-- Operation `loadUser` (authStore.ts lines 82–110): `storedToken`/`storedUser`
are the AsyncStorage reads, `refreshResult` the `/api/auth/me` response.
`if (token && userStr)` is JavaScript truthiness, so empty strings take
the else branch. -/
def loadUser (s : AuthState) (storedToken storedUser : Option String)
    (refreshResult : Option String) : AuthState :=
  match storedToken, storedUser with
  | some token, some u =>
      if token ≠ "" ∧ u ≠ "" then
        match refreshResult with
        | some u2 =>
            { s with token := some token, user := some u2,
                     isAuthenticated := true, isLoading := false }
        | none =>
            { s with token := none, user := none,
                     isAuthenticated := false, isLoading := false }
      else { s with isLoading := false }
  | _, _ => { s with isLoading := false }

/-- Operation `updateDonorProfile` (authStore.ts lines 112–127): success replaces
the user only; the error path re-throws without `set`. -/
def updateDonorProfile (s : AuthState) (result : Option String) : AuthState :=
  match result with
  | some updatedUser => { s with user := some updatedUser }
  | none => s

/-- Operation `refreshUser` (authStore.ts lines 129–143): early return when no
token; success replaces the user only; errors are logged and ignored. -/
def refreshUser (s : AuthState) (result : Option String) : AuthState :=
  match s.token with
  | none => s
  | some _ =>
      match result with
      | some u => { s with user := some u }
      | none => s

/-- The C9 invariant: `isAuthenticated` is true exactly when a token is
present. -/
def authInv (s : AuthState) : Prop := s.isAuthenticated = s.token.isSome

/-- A notification, bloodApi.ts lines 43–52; `data?.request_id` is kept
as an optional string. -/
structure AppNotice where
  id : String
  user_id : String
  title : String
  message : String
  kind : String
  is_read : Bool
  data_request_id : Option String
  created_at : String
deriving DecidableEq

/-- Set the `is_read` flag, leaving every other field unchanged (the
`{ ...n, is_read: true }` spread). -/
def markRead (n : AppNotice) : AppNotice := { n with is_read := true }

/-- Handler `handleNotificationPress` (notifications.tsx lines 43–60), restricted
to its state update: if the pressed notification is unread, map the list,
setting `is_read` on entries with the pressed id; otherwise leave the
list alone. -/
def handleNotificationPress (pressed : AppNotice) (l : List AppNotice) :
    List AppNotice :=
  if pressed.is_read then l
  else l.map (fun n => if n.id = pressed.id then markRead n else n)

/-- Handler `handleMarkAllRead` (notifications.tsx lines 62–69): set `is_read` on
every notification. -/
def handleMarkAllRead (l : List AppNotice) : List AppNotice :=
  l.map markRead

/-! ## Theorems -/

/-- Every key of the compatibility table is one of the 8 blood types. -/
theorem compat_keys_mem : ∀ e ∈ BLOOD_COMPATIBILITY, e.1 ∈ BLOOD_TYPES := by decide

/-- Every recipient listed in the compatibility table is one of the 8
blood types. -/
theorem compat_values_mem : ∀ e ∈ BLOOD_COMPATIBILITY, ∀ x ∈ e.2, x ∈ BLOOD_TYPES := by
  decide

/-- Property access on the table yields `undefined` for non-keys. -/
theorem compatLookup_eq_none {s : String} (hs : s ∉ BLOOD_TYPES) :
    compatLookup s = none := by
  have h : BLOOD_COMPATIBILITY.find? (fun e => e.1 == s) = none := by
    rw [List.find?_eq_none]
    intro e he
    simp only [beq_iff_eq]
    intro hq
    exact hs (hq ▸ compat_keys_mem e he)
  simp [compatLookup, h]

/-- A list whose members are all blood types does not contain a
non-blood-type string. -/
theorem contains_eq_false_of_unknown {s : String} (hs : s ∉ BLOOD_TYPES)
    (lst : List String) (hl : ∀ x ∈ lst, x ∈ BLOOD_TYPES) :
    lst.contains s = false := by
  cases hc : lst.contains s with
  | false => rfl
  | true =>
    have : s ∈ lst := by
      have : s ∈ lst := List.mem_of_elem_eq_true hc
      exact this
    exact absurd (hl s this) hs

/-- C2: the forward compatibility relation of bloodTypes.ts equals the
standard ABO/Rh donation rules on the 8 blood types; in particular O−
donates to every type and every type donates to AB+. -/
theorem canDonateTo_iff_std (d r : String)
    (hd : d ∈ BLOOD_TYPES) (hr : r ∈ BLOOD_TYPES) :
    (canDonateTo d r = true ↔ stdCanDonateTo d r = true)
    ∧ canDonateTo "O-" r = true ∧ canDonateTo d "AB+" = true := by
  have h : ∀ d ∈ BLOOD_TYPES, ∀ r ∈ BLOOD_TYPES,
      (canDonateTo d r = true ↔ stdCanDonateTo d r = true)
      ∧ canDonateTo "O-" r = true ∧ canDonateTo d "AB+" = true := by decide
  exact h d hd r hr

/-- C2 witness: the equivalence instantiated at donor A− and recipient
AB+. -/
theorem canDonateTo_iff_std_witness :
    (canDonateTo "A-" "AB+" = true ↔ stdCanDonateTo "A-" "AB+" = true)
    ∧ canDonateTo "O-" "AB+" = true ∧ canDonateTo "A-" "AB+" = true :=
  canDonateTo_iff_std "A-" "AB+" (by decide) (by decide)

/-- C3: the reverse lookup agrees with the forward table: a donor type is
produced by `getCompatibleDonorTypes r` exactly when `r` is in its
forward compatibility list. -/
theorem mem_getCompatibleDonorTypes_iff (d r : String)
    (hd : d ∈ BLOOD_TYPES) (hr : r ∈ BLOOD_TYPES) :
    d ∈ getCompatibleDonorTypes r ↔ canDonateTo d r = true := by
  have h : ∀ d ∈ BLOOD_TYPES, ∀ r ∈ BLOOD_TYPES,
      d ∈ getCompatibleDonorTypes r ↔ canDonateTo d r = true := by decide
  exact h d hd r hr

/-- C3 witness: O− appears among the compatible donors for O+ and indeed
may donate to O+. -/
theorem mem_getCompatibleDonorTypes_iff_witness :
    "O-" ∈ getCompatibleDonorTypes "O+" ↔ canDonateTo "O-" "O+" = true :=
  mem_getCompatibleDonorTypes_iff "O-" "O+" (by decide) (by decide)

/-- C4: the compatible-donor list for AB+ is all 8 blood types, and the
one for O− is exactly `["O-"]`. -/
theorem getCompatibleDonorTypes_extremes :
    getCompatibleDonorTypes "AB+" = BLOOD_TYPES
    ∧ getCompatibleDonorTypes "O-" = ["O-"] := by decide

/-- C5 counterexample: on the non-blood-type string "banana" the code
returns the ordinary value `[]` — the spec-mandated `UnknownBloodType`
failure does not happen. -/
theorem getCompatibleDonorTypes_unknown_counterexample :
    "banana" ∉ BLOOD_TYPES
    ∧ getCompatibleDonorTypes "banana" = []
    ∧ specCompatibleDonorsFor "banana" = .unknownBloodType
    ∧ specCompatibleDonorsFor "banana" ≠ .ok (getCompatibleDonorTypes "banana") := by
  decide

/-- C5 amended: unknown type strings are not rejected with an error — the
table has no entry for them and the reverse lookup returns the empty
list, a normal result. -/
theorem lookup_unknown_returns_normally {s : String} (hs : s ∉ BLOOD_TYPES) :
    compatLookup s = none ∧ getCompatibleDonorTypes s = [] := by
  refine ⟨compatLookup_eq_none hs, ?_⟩
  have hfold : ∀ (entries : List (String × List String)) (acc : List String),
      (∀ e ∈ entries, e.2.contains s = false) →
      entries.foldl
        (fun compatible e =>
          if e.2.contains s then compatible ++ [e.1] else compatible) acc = acc := by
    intro entries
    induction entries with
    | nil => intro acc _; rfl
    | cons e es ih =>
      intro acc h
      simp only [List.foldl_cons]
      rw [h e (List.mem_cons_self e es)]
      exact ih acc (fun x hx => h x (List.mem_cons_of_mem e hx))
  unfold getCompatibleDonorTypes
  exact hfold BLOOD_COMPATIBILITY []
    (fun e he => contains_eq_false_of_unknown hs e.2 (compat_values_mem e he))

/-- C5 amended witness: the amended behaviour at the concrete unknown
string "banana". -/
theorem lookup_unknown_returns_normally_witness :
    compatLookup "banana" = none ∧ getCompatibleDonorTypes "banana" = [] :=
  lookup_unknown_returns_normally (by decide)

/- ### FulfillmentCoordinator (server side, modelled from the spec)

The repository sources contain only the client caller
`bloodApi.acceptRequest` (bloodApi.ts lines 85–88); the coordinator
itself is on the server, absent from `src/`. -/

/-- Unit accounting of the serialized accept steps: the counter saturates
at `units_needed`, every successful call adds exactly one unit, and every
call either succeeds or fails with `RequestAlreadySatisfied`. -/
theorem runAccepts_spec (n : Nat) (r : ReqState)
    (h : r.units_fulfilled ≤ r.units_needed) :
    (runAccepts n r).2.units_fulfilled = min (r.units_fulfilled + n) r.units_needed
    ∧ (runAccepts n r).2.units_needed = r.units_needed
    ∧ (runAccepts n r).1.count .success
        = (runAccepts n r).2.units_fulfilled - r.units_fulfilled
    ∧ ∀ o ∈ (runAccepts n r).1, o = .success ∨ o = .requestAlreadySatisfied := by
  induction n generalizing r with
  | zero =>
    refine ⟨?_, rfl, ?_, ?_⟩
    · simp only [runAccepts]; omega
    · simp [runAccepts]
    · intro o ho; simp [runAccepts] at ho
  | succ n ih =>
    by_cases hc : r.units_fulfilled < r.units_needed
    · have hstep : atomicAccept r
          = (.success, { r with units_fulfilled := r.units_fulfilled + 1 }) := by
        simp [atomicAccept, hc]
      have h1 : ({ r with units_fulfilled := r.units_fulfilled + 1 } :
          ReqState).units_fulfilled ≤
          ({ r with units_fulfilled := r.units_fulfilled + 1 } : ReqState).units_needed := hc
      obtain ⟨ihf, ihn, ihc, iho⟩ := ih { r with units_fulfilled := r.units_fulfilled + 1 } h1
      refine ⟨?_, ?_, ?_, ?_⟩
      all_goals simp only [runAccepts, hstep]
      · rw [ihf]; simp only []; omega
      · exact ihn
      · rw [List.count_cons, ihc, ihf]
        simp only [beq_self_eq_true, if_true]
        have hle : r.units_fulfilled + 1 ≤ min (r.units_fulfilled + 1 + n) r.units_needed := by
          omega
        omega
      · intro o ho
        rcases List.mem_cons.mp ho with h | h
        · exact Or.inl h
        · exact iho o h
    · have heq : r.units_fulfilled = r.units_needed := by omega
      have hstep : atomicAccept r = (.requestAlreadySatisfied, r) := by
        simp [atomicAccept, hc]
      obtain ⟨ihf, ihn, ihc, iho⟩ := ih r h
      refine ⟨?_, ?_, ?_, ?_⟩
      all_goals simp only [runAccepts, hstep]
      · rw [ihf]; omega
      · exact ihn
      · rw [List.count_cons, ihc, ihf]
        have hne : (AcceptOutcome.requestAlreadySatisfied == AcceptOutcome.success)
            = false := rfl
        rw [hne]
        simp only [Bool.false_eq_true, if_false]
        omega
      · intro o ho
        rcases List.mem_cons.mp ho with h | h
        · exact Or.inr h
        · exact iho o h

/-- C1 counterexample: one accept call on a fresh request needing 2 units
succeeds, so the number of successful calls is 1 = min(N, units_needed),
not units_needed = 2 as the claim states. -/
theorem concurrent_accepts_counterexample :
    (runAccepts 1 (freshRequest 2)).1.count .success = 1
    ∧ (1 : Nat) ≠ 2
    ∧ (runAccepts 1 (freshRequest 2)).2.units_fulfilled = min 1 2 := by decide

/-- C1 amended: under N concurrent accepts on a fresh request with
positive `units_needed`, the counter stays within `0 ≤ units_fulfilled ≤
units_needed` after every step, the final count is min(N, units_needed),
exactly min(N, units_needed) of the calls succeed, and every remaining
call fails with `RequestAlreadySatisfied`. -/
theorem concurrent_accepts_spec (N un : Nat) (_hpos : 0 < un) :
    (runAccepts N (freshRequest un)).2.units_fulfilled = min N un
    ∧ (runAccepts N (freshRequest un)).1.count .success = min N un
    ∧ (∀ o ∈ (runAccepts N (freshRequest un)).1,
        o ≠ .success → o = .requestAlreadySatisfied)
    ∧ ∀ k, (runAccepts k (freshRequest un)).2.units_fulfilled ≤ un := by
  have h0 : (freshRequest un).units_fulfilled ≤ (freshRequest un).units_needed := by
    simp [freshRequest]
  obtain ⟨hf, hn, hc, ho⟩ := runAccepts_spec N (freshRequest un) h0
  refine ⟨?_, ?_, ?_, ?_⟩
  · rw [hf]; simp [freshRequest]
  · rw [hc, hf]; simp [freshRequest]
  · intro o hmem hne
    rcases ho o hmem with h | h
    · exact absurd h hne
    · exact h
  · intro k
    obtain ⟨hkf, hkn, -, -⟩ := runAccepts_spec k (freshRequest un) h0
    rw [hkf]; simp [freshRequest]

/-- C1 amended witness: 3 concurrent accepts on a fresh request needing 2
units — final count 2, two successes, the rest `RequestAlreadySatisfied`. -/
theorem concurrent_accepts_spec_witness :
    (runAccepts 3 (freshRequest 2)).2.units_fulfilled = min 3 2
    ∧ (runAccepts 3 (freshRequest 2)).1.count .success = min 3 2
    ∧ (∀ o ∈ (runAccepts 3 (freshRequest 2)).1,
        o ≠ .success → o = .requestAlreadySatisfied)
    ∧ ∀ k, (runAccepts k (freshRequest 2)).2.units_fulfilled ≤ 2 :=
  concurrent_accepts_spec 3 2 (by decide)

/- ### Client accept gating (request/[id].tsx and RequestCard.tsx) -/

/-- C6 counterexample: for a cancelled request, a matched donor who has
not yet accepted is still offered the Accept action, on both the detail
screen and the request card. -/
theorem accept_gate_cancelled_counterexample :
    showAcceptDetail true true false "cancelled" = true
    ∧ showAcceptCard true "cancelled" = true := by decide

/-- C6 amended: `acceptMatch` fails with `RequestTerminal` on any
terminal request (spec-modelled coordinator), and the client never offers
the Accept action for a request whose status is `fulfilled` — but the
gates test only `fulfilled`, not `cancelled`. -/
theorem accept_terminal_gating (r : ReqState) (hterm : r.isTerminal = true)
    (d m a sh : Bool) (s : String) (hs : s = "fulfilled") :
    acceptMatch r = (.requestTerminal, r)
    ∧ showAcceptDetail d m a s = false
    ∧ showAcceptCard sh s = false := by
  subst hs
  refine ⟨?_, ?_, ?_⟩
  · simp [acceptMatch, hterm]
  · simp [showAcceptDetail]
  · simp [showAcceptCard]

/-- C6 amended witness: a fulfilled request (2 of 2 units) rejects
`acceptMatch` with `RequestTerminal`, and neither screen shows the
button. -/
theorem accept_terminal_gating_witness :
    acceptMatch ⟨2, 2, false⟩ = (.requestTerminal, ⟨2, 2, false⟩)
    ∧ showAcceptDetail true true false "fulfilled" = false
    ∧ showAcceptCard true "fulfilled" = false :=
  accept_terminal_gating ⟨2, 2, false⟩ (by decide) true true false true "fulfilled" rfl

/- ### MatchSelector (server side, modelled from the spec)

Only the client consumers exist in `src/` (nearby.tsx, the DonorMatch
interface of bloodApi.ts lines 32–41); the selector itself is on the
server and is modelled from §4.4. GeoDistance, the ScoringEngine weights
and the cooldown-date comparison are floating-point / clock collaborators
and enter the model as parameters. -/

/-- Inserting into a sorted run only adds the inserted element. -/
theorem mem_insertMatch {x a : DonorMatch} {l : List DonorMatch}
    (h : x ∈ insertMatch a l) : x = a ∨ x ∈ l := by
  induction l with
  | nil =>
    simp [insertMatch] at h
    exact Or.inl h
  | cons b l ih =>
    by_cases hc : matchLE a b
    · simp [insertMatch, hc] at h
      rcases h with h | h | h
      · exact Or.inl h
      · exact Or.inr (List.mem_cons.mpr (Or.inl h))
      · exact Or.inr (List.mem_cons.mpr (Or.inr h))
    · simp only [insertMatch, hc, if_false, List.mem_cons, Bool.false_eq_true] at h
      rcases h with h | h
      · exact Or.inr (List.mem_cons.mpr (Or.inl h))
      · rcases ih h with h | h
        · exact Or.inl h
        · exact Or.inr (List.mem_cons.mpr (Or.inr h))

/-- Sorting produces no new elements. -/
theorem mem_sortMatches {x : DonorMatch} {l : List DonorMatch}
    (h : x ∈ sortMatches l) : x ∈ l := by
  induction l with
  | nil => simp [sortMatches] at h
  | cons a l ih =>
    rcases mem_insertMatch h with h | h
    · exact h ▸ List.mem_cons_self a l
    · exact List.mem_cons.mpr (Or.inr (ih h))

/-- C7: every DonorMatch returned by the spec-modelled `selectMatches` is
for an available donor: `is_available = true` on every element of the
result. -/
theorem selectMatches_available (radius_km : Int) (topN : Nat)
    (requestBloodType : String) (dist score : Donor → Int)
    (cooldownOk : Donor → Bool) (candidates : List Donor)
    (m : DonorMatch)
    (hm : m ∈ selectMatches radius_km topN requestBloodType dist score
      cooldownOk candidates) :
    m.is_available = true := by
  unfold selectMatches at hm
  have hsorted := List.take_subset _ _ hm
  have hmap := mem_sortMatches hsorted
  rcases List.mem_map.mp hmap with ⟨d, hd, hdm⟩
  have hnear := hd
  have hcompat := (List.mem_filter.mp hnear).1
  have hcooled := (List.mem_filter.mp hcompat).1
  have havail := (List.mem_filter.mp hcooled).1
  have hflag : d.is_available = true := (List.mem_filter.mp havail).2
  rw [← hdm]
  exact hflag

/- ### Create-request form (src/unnamed/part_001, CreateRequestScreen) -/

/-- C8: every reachable value of the units selector submits a
`units_needed` between 1 and 5; in particular `'5+'` parses to 5 and the
fallback keeps the value positive. -/
theorem unitsNeededValue_bounds (s : String) (hs : unitsStateReachable s) :
    1 ≤ unitsNeededValue s ∧ unitsNeededValue s ≤ 5 := by
  have hmem : s ∈ UNIT_OPTIONS := by
    rcases hs with h | h
    · rw [h]; decide
    · exact h
  have h : ∀ t ∈ UNIT_OPTIONS, 1 ≤ unitsNeededValue t ∧ unitsNeededValue t ≤ 5 := by
    decide
  exact h s hmem

/-- C8 witness: the `'5+'` option submits exactly 5 units. -/
theorem unitsNeededValue_bounds_witness :
    (1 ≤ unitsNeededValue "5+" ∧ unitsNeededValue "5+" ≤ 5)
    ∧ unitsNeededValue "5+" = 5 :=
  ⟨unitsNeededValue_bounds "5+" (Or.inr (by decide)), by decide⟩

/- ### Auth store (src/frontend/src/store/authStore.ts) -/

/-- C9: the initial auth-store state satisfies the invariant, and every
operation preserves it on both its success and its error paths. -/
theorem authStore_invariant :
    authInv initialAuthState
    ∧ (∀ s r, authInv s → authInv (login s r))
    ∧ (∀ s r, authInv s → authInv (registerUser s r))
    ∧ (∀ s, authInv s → authInv (logout s))
    ∧ (∀ s t u rr, authInv s → authInv (loadUser s t u rr))
    ∧ (∀ s r, authInv s → authInv (updateDonorProfile s r))
    ∧ (∀ s r, authInv s → authInv (refreshUser s r)) := by
  refine ⟨rfl, ?_, ?_, ?_, ?_, ?_, ?_⟩
  · intro s r h
    cases r with
    | none => exact h
    | some p => cases p; simp [login, authInv]
  · intro s r h
    cases r with
    | none => exact h
    | some p => cases p; simp [registerUser, login, authInv]
  · intro s h
    simp [logout, authInv]
  · intro s t u rr h
    cases t with
    | none => simpa [loadUser, authInv] using h
    | some tok =>
      cases u with
      | none => simpa [loadUser, authInv] using h
      | some us =>
        by_cases hne : tok ≠ "" ∧ us ≠ ""
        · cases rr with
          | some u2 => simp [loadUser, hne, authInv]
          | none => simp [loadUser, hne, authInv]
        · simpa [loadUser, hne, authInv] using h
  · intro s r h
    cases r with
    | none => exact h
    | some u => simpa [updateDonorProfile, authInv] using h
  · intro s r h
    cases hs : s.token with
    | none => simp [refreshUser, hs]; exact h
    | some tok =>
      cases r with
      | none => simp [refreshUser, hs]; exact h
      | some u =>
        simp [refreshUser, hs, authInv]
        simpa [authInv, hs] using h

/-- C9 witness: a successful login from the initial state yields an
invariant-satisfying state. -/
theorem authStore_invariant_witness :
    authInv (login initialAuthState (some ("tok", "{}"))) :=
  authStore_invariant.2.1 initialAuthState (some ("tok", "{}"))
    authStore_invariant.1

/- ### Notifications screen (src/frontend/app/notifications.tsx) -/

/-- Function `markRead` is the identity on an already-read notification. -/
theorem markRead_of_read {n : AppNotice} (h : n.is_read = true) :
    markRead n = n := by
  cases n with
  | mk id uid t m k ir d c =>
    have h' : ir = true := h
    subst h'
    rfl

/-- C10: pressing a notification of the list (ids being unique) rewrites
exactly the pressed entry to its marked-read copy and leaves every other
entry untouched, preserving length and order; mark-all-read rewrites
every entry to its marked-read copy, preserving length and order. -/
theorem notifications_frame (pressed : AppNotice) (l : List AppNotice)
    (hmem : pressed ∈ l) (hnodup : (l.map AppNotice.id).Nodup) :
    ((handleNotificationPress pressed l).length = l.length
      ∧ ∀ i : Nat, (handleNotificationPress pressed l)[i]?
          = (l[i]?).map (fun n => if n.id = pressed.id then markRead n else n))
    ∧ ((handleMarkAllRead l).length = l.length
      ∧ ∀ i : Nat, (handleMarkAllRead l)[i]? = (l[i]?).map markRead) := by
  have hinj : ∀ x ∈ l, ∀ y ∈ l, x.id = y.id → x = y := by
    intro x hx y hy hxy
    exact List.inj_on_of_nodup_map hnodup hx hy hxy
  constructor
  · by_cases hread : pressed.is_read
    · constructor
      · simp [handleNotificationPress, hread]
      · intro i
        simp only [handleNotificationPress, hread, if_true]
        cases hi : l[i]? with
        | none => simp
        | some n =>
          have hn : n ∈ l := List.getElem?_mem hi
          simp only [Option.map_some']
          by_cases hid : n.id = pressed.id
          · have : n = pressed := hinj n hn pressed hmem hid
            rw [if_pos hid, this, markRead_of_read hread]
          · rw [if_neg hid]
    · constructor
      · simp [handleNotificationPress, hread]
      · intro i
        simp [handleNotificationPress, hread, List.getElem?_map]
  · exact ⟨by simp [handleMarkAllRead], fun i => by
      simp [handleMarkAllRead, List.getElem?_map]⟩

/-- C10 witness: a concrete two-element list with distinct ids — pressing
the first unread notification marks it and leaves the second alone, and
mark-all-read marks both. -/
theorem notifications_frame_witness :
    ((handleNotificationPress ⟨"n1", "u", "t1", "m1", "match", false, none, "d"⟩
        [⟨"n1", "u", "t1", "m1", "match", false, none, "d"⟩,
         ⟨"n2", "u", "t2", "m2", "request", false, none, "d"⟩]).length = 2
      ∧ ∀ i : Nat,
        (handleNotificationPress ⟨"n1", "u", "t1", "m1", "match", false, none, "d"⟩
          [⟨"n1", "u", "t1", "m1", "match", false, none, "d"⟩,
           ⟨"n2", "u", "t2", "m2", "request", false, none, "d"⟩])[i]?
          = (([⟨"n1", "u", "t1", "m1", "match", false, none, "d"⟩,
              ⟨"n2", "u", "t2", "m2", "request", false, none, "d"⟩] :
              List AppNotice)[i]?).map
              (fun n => if n.id = (⟨"n1", "u", "t1", "m1", "match", false, none,
                "d"⟩ : AppNotice).id then markRead n else n))
    ∧ ((handleMarkAllRead
          [⟨"n1", "u", "t1", "m1", "match", false, none, "d"⟩,
           ⟨"n2", "u", "t2", "m2", "request", false, none, "d"⟩]).length = 2
      ∧ ∀ i : Nat,
        (handleMarkAllRead
          [⟨"n1", "u", "t1", "m1", "match", false, none, "d"⟩,
           ⟨"n2", "u", "t2", "m2", "request", false, none, "d"⟩])[i]?
          = (([⟨"n1", "u", "t1", "m1", "match", false, none, "d"⟩,
              ⟨"n2", "u", "t2", "m2", "request", false, none, "d"⟩] :
              List AppNotice)[i]?).map markRead) :=
  notifications_frame
    ⟨"n1", "u", "t1", "m1", "match", false, none, "d"⟩
    [⟨"n1", "u", "t1", "m1", "match", false, none, "d"⟩,
     ⟨"n2", "u", "t2", "m2", "request", false, none, "d"⟩]
    (by decide) (by decide)

/-- C7 witness: a concrete available O− donor 2 km away survives
selection for an A+ request and indeed carries `is_available = true`. -/
theorem selectMatches_available_witness :
    ({ donor_id := 7, donor_name := "Asha", blood_type := "O-",
       distance_km := 2, compatibility_score := 98, is_available := true,
       status := "proposed" } : DonorMatch).is_available = true :=
  selectMatches_available 50 3 "A+" (fun _ => 2) (fun _ => 98) (fun _ => true)
    [{ donor_id := 7, donor_name := "Asha", blood_type := "O-",
       is_available := true }]
    { donor_id := 7, donor_name := "Asha", blood_type := "O-",
      distance_km := 2, compatibility_score := 98, is_available := true,
      status := "proposed" }
    (by decide)
